import Mathlib

/-!
Verification development for the safe-relay-service core: shallow embedding of
`safe_relay_service/relay/services/safe_creation_service.py` and of the
transaction-relay / Safe-service operations specified in `spec.md`
(those operations are exercised by `relay/tests/test_transaction_service.py`
but their implementation is not part of this corpus, so they are modelled
from the spec and marked as such).

Conventions of the embedding:
- blockchain addresses, hashes and byte values are `Nat`; byte strings are
  `List Nat` (each entry a byte);
- token values in ether are `ℚ` (the Python code uses `float` only as an
  exchange rate, never in byte-exact arithmetic);
- Python exceptions become `Except` errors; Django ORM writes become explicit
  state transitions, with write failures injected through an environment flag
  (each `objects.create` autocommits on its own — the service does not wrap
  the two writes in a transaction).
-/

namespace SafeRelay

/-- `gnosis.eth.constants.NULL_ADDRESS`, the native-currency zero address. -/
def NULL_ADDRESS : Nat := 0

/-- Big-endian fixed-width byte encoding of a natural number: `beBytes n x`
is the `n`-byte big-endian representation of `x % 256^n`. -/
def beBytes : Nat → Nat → List Nat
  | 0, _ => []
  | k + 1, x => beBytes k (x / 256) ++ [x % 256]

theorem beBytes_length (n x : Nat) : (beBytes n x).length = n := by
  induction n generalizing x with
  | zero => rfl
  | succ k ih => simp [beBytes, ih]

/-! ## Token resolution (`_get_token_eth_value_or_raise`) -/

/-- A row of the `Token` table as used by the creation service: an address, a
`gas` flag marking the token as accepted for gas payment, and its current
ether value (the result of `token.get_eth_value()`). -/
structure Token where
  address : Nat
  gas : Bool
  ethValue : ℚ
deriving DecidableEq

/-- Errors raised by the creation service and the collaborators it calls. -/
inductive CreationError where
  | invalidPaymentToken (address : Nat)
  | multipleTokensReturned (address : Nat)
  | builderFailed
  | dbWriteFailed
  | safeCreation2DoesNotExist (address : Nat)
  | deployFailed
deriving DecidableEq

/-- `SafeCreationService._get_token_eth_value_or_raise`: the zero address (or
a missing token) resolves to `1.0` with no database lookup; any other address
is looked up in the `Token` table filtered on `gas=True` (Django
`objects.get` semantics: no match raises `DoesNotExist`, caught and re-raised
as `InvalidPaymentToken(address)`; more than one match raises
`MultipleObjectsReturned`, which the service does not catch). -/
def get_token_eth_value_or_raise (db : List Token) (address : Option Nat) :
    Except CreationError ℚ :=
  let a := address.getD NULL_ADDRESS
  if a = NULL_ADDRESS then Except.ok 1
  else
    match db.filter (fun t => t.address == a && t.gas) with
    | [] => Except.error (CreationError.invalidPaymentToken a)
    | [t] => Except.ok t.ethValue
    | _ => Except.error (CreationError.multipleTokensReturned a)

/-! ## Signature packing (`signatures_to_bytes`) -/

/-- Modelled from the spec: `packSignatures` packs one `(v, r, s)` signature
as fixed-width `r (32 bytes) ‖ s (32 bytes) ‖ v (1 byte)` (the Safe-service
`signature_to_bytes` implementation is not part of this corpus). -/
def signature_to_bytes (vrs : Nat × Nat × Nat) : List Nat :=
  beBytes 32 vrs.2.1 ++ beBytes 32 vrs.2.2 ++ [vrs.1 % 256]

/-- Modelled from the spec: `packSignatures (ordered (v,r,s) triples) → bytes`
concatenates the 65-byte blocks in the order given by the caller (the
Safe-service `signatures_to_bytes` implementation is not part of this
corpus). -/
def signatures_to_bytes (sigs : List (Nat × Nat × Nat)) : List Nat :=
  (sigs.map signature_to_bytes).flatten

theorem signature_to_bytes_length (vrs : Nat × Nat × Nat) :
    (signature_to_bytes vrs).length = 65 := by
  simp [signature_to_bytes, beBytes_length]

/-! ## Structured transaction hash (`get_hash_for_safe_tx` / `getTransactionHash`)

Both sides are parameterised by an abstract `keccak : List Nat → Nat` digest,
since the byte-level hash primitive is outside this corpus. -/

/-- The abi-style inner encoding of the transaction fields hashed by the
off-chain core, in the spec's exact field order: `to_addr`, `value`,
`keccak(data)`, `operation`, `safe_tx_gas`, `data_gas`, `gas_price`,
`gas_token`, `refund_receiver`, `nonce`, each as a 32-byte word. -/
def encodeSafeTxFields (keccak : List Nat → Nat) (to_addr value : Nat)
    (data : List Nat) (op safe_tx_gas data_gas gas_price gas_token
    refund_receiver nonce : Nat) : List Nat :=
  ([to_addr, value, keccak data, op, safe_tx_gas, data_gas, gas_price, gas_token,
    refund_receiver, nonce].map (beBytes 32)).flatten

/-- Modelled from the spec: the off-chain `get_hash_for_safe_tx` of the Safe
service (its implementation is not part of this corpus) — an EIP-712-style
structured hash `keccak(0x19 ‖ 0x01 ‖ safe_address ‖ keccak(encoded fields))`
over the spec's exact fields in the spec's exact order. -/
def get_hash_for_safe_tx (keccak : List Nat → Nat) (safe_address to_addr value : Nat)
    (data : List Nat) (op safe_tx_gas data_gas gas_price gas_token
    refund_receiver nonce : Nat) : Nat :=
  keccak ([0x19, 0x01] ++ beBytes 32 safe_address ++
    beBytes 32 (keccak (encodeSafeTxFields keccak to_addr value data op safe_tx_gas
      data_gas gas_price gas_token refund_receiver nonce)))

/-- Modelled from the spec: the deployed wallet contract's own
`getTransactionHash` (the contract is not part of this corpus) — the same
EIP-712-style structured hash, written here as the contract's direct
concatenation of the 32-byte words of `to_addr`, `value`, `keccak(data)`,
`operation`, `safe_tx_gas`, `data_gas`, `gas_price`, `gas_token`,
`refund_receiver`, `nonce`. -/
def getTransactionHash (keccak : List Nat → Nat) (safe_address to_addr value : Nat)
    (data : List Nat) (op safe_tx_gas data_gas gas_price gas_token
    refund_receiver nonce : Nat) : Nat :=
  keccak ([0x19, 0x01] ++ beBytes 32 safe_address ++
    beBytes 32 (keccak (beBytes 32 to_addr ++ beBytes 32 value ++
      beBytes 32 (keccak data) ++ beBytes 32 op ++ beBytes 32 safe_tx_gas ++
      beBytes 32 data_gas ++ beBytes 32 gas_price ++ beBytes 32 gas_token ++
      beBytes 32 refund_receiver ++ beBytes 32 nonce)))

/-! ## Transaction relay service (`send_multisig_tx`)

Modelled from the spec (the `transaction_service.py` implementation is not
part of this corpus; only its test is): step 1 computes the structured hash
from the explicit fields and the wallet's current on-chain nonce; step 2
verifies the signatures against the wallet's current owners; step 3 runs the
policy checks in the spec's order (refund receiver, nonzero gas price, gas
price floor, fund sufficiency), each a fast-fail before any broadcast;
step 4 submits the transaction and the wallet's nonce increments by one. -/

/-- Gas price tiers returned by the gas station oracle. -/
structure GasPrices where
  slow : Nat
  standard : Nat
  fast : Nat
deriving DecidableEq

/-- Relay-path errors, named as in the source taxonomy. -/
inductive RelayError where
  | invalidSignatures
  | invalidRefundReceiver
  | refundMustBeEnabled
  | gasPriceTooLow
  | notEnoughFundsForMultisigTx
deriving DecidableEq

/-- The transaction object echoed back by a successful relay submission. -/
structure RelayTx where
  to_addr : Nat
  value : Nat
  gas : Nat
deriving DecidableEq

/-- External collaborators of the relay service: the keccak digest used for
the structured hash, the signature checker (`check_hash` recovers signers
and compares them with the owner set), the allowed refund receivers, the gas
oracle's current quote (fetched fresh per call) and the node's hash for the
broadcast transaction. -/
structure RelayEnv where
  keccak : List Nat → Nat
  checkSignatures : Nat → List Nat → List Nat → Bool
  allowedReceivers : List Nat
  gasPrices : GasPrices
  submittedTxHash : Nat

/-- On-chain state visible to the relay service: native-currency balances,
wallet nonces, wallet owner sets, and the list of broadcast transactions. -/
structure ChainState where
  balances : Nat → Nat
  nonces : Nat → Nat
  owners : Nat → List Nat
  broadcasts : List Nat

/-- The structured hash the relay computes in step 1, over the explicit
fields and the wallet's current on-chain nonce. -/
def multisigTxHash (env : RelayEnv) (st : ChainState)
    (safe_address to_addr value : Nat) (data : List Nat)
    (op safe_tx_gas data_gas gas_price gas_token refund_receiver : Nat) : Nat :=
  get_hash_for_safe_tx env.keccak safe_address to_addr value data op safe_tx_gas
    data_gas gas_price gas_token refund_receiver (st.nonces safe_address)

/-- Modelled from the spec: `send_multisig_tx` — validate then submit an
already-signed multisig transaction (see the section comment above for the
check order). -/
def send_multisig_tx (env : RelayEnv) (st : ChainState)
    (safe_address to_addr value : Nat) (data : List Nat)
    (op safe_tx_gas data_gas gas_price gas_token refund_receiver : Nat)
    (signatures : List Nat) :
    Except RelayError (Nat × RelayTx) × ChainState :=
  let hash := multisigTxHash env st safe_address to_addr value data op safe_tx_gas
    data_gas gas_price gas_token refund_receiver
  if env.checkSignatures hash signatures (st.owners safe_address) then
    if refund_receiver = NULL_ADDRESS ∨ refund_receiver ∈ env.allowedReceivers then
      if gas_price = 0 then
        (Except.error RelayError.refundMustBeEnabled, st)
      else if gas_price < env.gasPrices.standard then
        (Except.error RelayError.gasPriceTooLow, st)
      else if st.balances safe_address <
          (data_gas + safe_tx_gas) * gas_price + value then
        (Except.error RelayError.notEnoughFundsForMultisigTx, st)
      else
        (Except.ok (env.submittedTxHash, ⟨to_addr, value, safe_tx_gas + data_gas⟩),
         { st with
            nonces := fun a =>
              if a = safe_address then st.nonces a + 1 else st.nonces a,
            broadcasts := st.broadcasts ++ [env.submittedTxHash] })
    else
      (Except.error RelayError.invalidRefundReceiver, st)
  else
    (Except.error RelayError.invalidSignatures, st)

/-! ## Creation service (`SafeCreationService`)

`create_safe_tx`, `create2_safe_tx`, `deploy_create2_safe_tx` and
`retrieve_safe_info` are in the corpus; the Safe-service builder they call
(`build_safe_creation_tx`, `build_safe_create2_tx`,
`deploy_proxy_contract_with_nonce`) and the Django ORM are external
collaborators carried in an environment. A failed ORM write raises after the
rows already written by earlier `objects.create` calls are committed — the
service wraps nothing in a database transaction. -/

/-- The builder's output for the legacy scheme
(`SafeService.build_safe_creation_tx`), restricted to the fields the
creation service reads. -/
structure SafeCreationTx where
  safe_address : Nat
  master_copy : Nat
  deployer_address : Nat
  funder : Nat
  payment : Nat
  tx_hash : Nat
  gas : Nat
  gas_price : Nat
  payment_token : Nat
  value : Nat
  v : Nat
  r : Nat
  s : Nat
  data : List Nat
  tx_raw : List Nat
deriving DecidableEq

/-- The builder's output for the salt-based scheme
(`SafeService.build_safe_create2_tx`), restricted to the fields the creation
service reads. -/
structure SafeCreation2Tx where
  safe_address : Nat
  master_copy_address : Nat
  proxy_factory_address : Nat
  payment_token : Nat
  payment : Nat
  payment_receiver : Nat
  safe_setup_data : List Nat
  gas : Nat
  gas_price : Nat
deriving DecidableEq

/-- A persisted `SafeContract` row (the wallet-contract stub). -/
structure SafeContract where
  address : Nat
  master_copy : Nat
deriving DecidableEq

/-- A persisted `SafeCreation` row (legacy creation record). -/
structure SafeCreation where
  deployer : Nat
  safe : Nat
  master_copy : Nat
  funder : Nat
  owners : List Nat
  threshold : Nat
  payment : Nat
  tx_hash : Nat
  gas : Nat
  gas_price : Nat
  payment_token : Option Nat
  value : Nat
  v : Nat
  r : Nat
  s : Nat
  data : List Nat
  signed_tx : List Nat
deriving DecidableEq

/-- A persisted `SafeCreation2` row (salt-based creation record); `tx_hash`
is `none` until a deployment submission writes it. -/
structure SafeCreation2 where
  safe : Nat
  master_copy : Nat
  proxy_factory : Nat
  salt_nonce : Nat
  owners : List Nat
  threshold : Nat
  payment_token : Option Nat
  payment : Nat
  payment_receiver : Nat
  setup_data : List Nat
  gas_estimated : Nat
  gas_price_estimated : Nat
  tx_hash : Option Nat
deriving DecidableEq

/-- The persisted database state the creation service writes to. -/
structure DBState where
  safeContracts : List SafeContract
  safeCreations : List SafeCreation
  safeCreation2s : List SafeCreation2
deriving DecidableEq

/-- External collaborators of the creation service: the `Token` table, the
gas oracle quote (fetched fresh per call), the two Safe-service builders,
and flags injecting persistence-layer failures into the two `objects.create`
writes of a creation call. -/
structure CreationEnv where
  tokenDb : List Token
  gasPrices : GasPrices
  buildSafeCreationTx :
    Nat → List Nat → Nat → Nat → Nat → ℚ → Nat → Except CreationError SafeCreationTx
  buildSafeCreate2Tx :
    Nat → List Nat → Nat → Nat → Nat → ℚ → Nat → Except CreationError SafeCreation2Tx
  contractCreateOk : Bool
  creationCreateOk : Bool

/-- The `SafeCreation` row that `create_safe_tx` hands to `objects.create`:
every field is copied from the builder's output except `owners` and
`threshold` (the call's arguments) and `payment_token`, which is `None` when
the builder's payment token is the zero address. -/
def legacyRecordOf (tx : SafeCreationTx) (owners : List Nat)
    (threshold : Nat) : SafeCreation :=
  { deployer := tx.deployer_address
    safe := tx.safe_address
    master_copy := tx.master_copy
    funder := tx.funder
    owners := owners
    threshold := threshold
    payment := tx.payment
    tx_hash := tx.tx_hash
    gas := tx.gas
    gas_price := tx.gas_price
    payment_token :=
      if tx.payment_token = NULL_ADDRESS then none else some tx.payment_token
    value := tx.value
    v := tx.v
    r := tx.r
    s := tx.s
    data := tx.data
    signed_tx := tx.tx_raw }

/-- The `SafeCreation2` row that `create2_safe_tx` hands to `objects.create`,
with the same `payment_token` normalization; `tx_hash` is not set at
creation time. -/
def create2RecordOf (tx : SafeCreation2Tx) (salt_nonce : Nat)
    (owners : List Nat) (threshold : Nat) : SafeCreation2 :=
  { safe := tx.safe_address
    master_copy := tx.master_copy_address
    proxy_factory := tx.proxy_factory_address
    salt_nonce := salt_nonce
    owners := owners
    threshold := threshold
    payment_token :=
      if tx.payment_token = NULL_ADDRESS then none else some tx.payment_token
    payment := tx.payment
    payment_receiver := tx.payment_receiver
    setup_data := tx.safe_setup_data
    gas_estimated := tx.gas
    gas_price_estimated := tx.gas_price
    tx_hash := none }

/-- `SafeCreationService.create_safe_tx`: resolve the payment token, fetch
the fast gas price, build the legacy creation transaction, then persist the
`SafeContract` stub followed by the `SafeCreation` record. The stored
`payment_token` field is `None` when the builder's payment token is the zero
address. The two writes are separate autocommits: a failure of the second
leaves the first committed. -/
def create_safe_tx (env : CreationEnv) (fixed_creation_cost : Nat)
    (st : DBState) (s : Nat) (owners : List Nat) (threshold : Nat)
    (payment_token : Option Nat) : Except CreationError SafeCreation × DBState :=
  match get_token_eth_value_or_raise env.tokenDb payment_token with
  | Except.error e => (Except.error e, st)
  | Except.ok payment_token_eth_value =>
    match env.buildSafeCreationTx s owners threshold env.gasPrices.fast
        (payment_token.getD NULL_ADDRESS) payment_token_eth_value
        fixed_creation_cost with
    | Except.error e => (Except.error e, st)
    | Except.ok tx =>
      if env.contractCreateOk then
        let contract : SafeContract := ⟨tx.safe_address, tx.master_copy⟩
        let st1 : DBState :=
          { st with safeContracts := st.safeContracts ++ [contract] }
        if env.creationCreateOk then
          let record := legacyRecordOf tx owners threshold
          (Except.ok record,
           { st1 with safeCreations := st1.safeCreations ++ [record] })
        else
          (Except.error CreationError.dbWriteFailed, st1)
      else
        (Except.error CreationError.dbWriteFailed, st)

/-- `SafeCreationService.create2_safe_tx`: same resolution and pricing steps
as the legacy path, using the salt-based builder; persists the stub followed
by the `SafeCreation2` record (same two separate autocommit writes). -/
def create2_safe_tx (env : CreationEnv) (fixed_creation_cost : Nat)
    (st : DBState) (salt_nonce : Nat) (owners : List Nat) (threshold : Nat)
    (payment_token : Option Nat) : Except CreationError SafeCreation2 × DBState :=
  match get_token_eth_value_or_raise env.tokenDb payment_token with
  | Except.error e => (Except.error e, st)
  | Except.ok payment_token_eth_value =>
    match env.buildSafeCreate2Tx salt_nonce owners threshold env.gasPrices.fast
        (payment_token.getD NULL_ADDRESS) payment_token_eth_value
        fixed_creation_cost with
    | Except.error e => (Except.error e, st)
    | Except.ok tx =>
      if env.contractCreateOk then
        let contract : SafeContract := ⟨tx.safe_address, tx.master_copy_address⟩
        let st1 : DBState :=
          { st with safeContracts := st.safeContracts ++ [contract] }
        if env.creationCreateOk then
          let record := create2RecordOf tx salt_nonce owners threshold
          (Except.ok record,
           { st1 with safeCreation2s := st1.safeCreation2s ++ [record] })
        else
          (Except.error CreationError.dbWriteFailed, st1)
      else
        (Except.error CreationError.dbWriteFailed, st)

/-- State touched by `deploy_create2_safe_tx`: the persisted `SafeCreation2`
rows and the deployment transactions submitted to the node so far. -/
structure DeployState where
  records : List SafeCreation2
  broadcasts : List Nat
deriving DecidableEq

/-- `SafeCreationService.deploy_create2_safe_tx`: load the persisted
`SafeCreation2` row for the address (`objects.get` raises `DoesNotExist`
when there is none, before anything is submitted), submit the deployment
through `deploy_proxy_contract_with_nonce` with the stored setup data and
estimates, then write the returned hash into the row's `tx_hash` field and
save. The function never checks whether `tx_hash` was already set.
`deployResult` is the external node's answer for this submission. -/
def deploy_create2_safe_tx (deployResult : Except CreationError Nat)
    (st : DeployState) (safe_address : Nat) :
    Except CreationError Nat × DeployState :=
  match st.records.find? (fun r2 => r2.safe == safe_address) with
  | none => (Except.error (CreationError.safeCreation2DoesNotExist safe_address), st)
  | some r2 =>
    match deployResult with
    | Except.error e => (Except.error e, st)
    | Except.ok h =>
      (Except.ok h,
       { records := st.records.map (fun q =>
           if q.safe == safe_address then { r2 with tx_hash := some h } else q)
         broadcasts := st.broadcasts ++ [h] })

/-! ## Wallet info retrieval (`retrieve_safe_info`) -/

/-- The five on-chain reads `retrieve_safe_info` performs, in order. -/
inductive SafeRead where
  | nonce
  | threshold
  | owners
  | masterCopy
  | version
deriving DecidableEq

/-- The `SafeInfo` named tuple returned by `retrieve_safe_info`. -/
structure SafeInfo where
  address : Nat
  nonce : Nat
  threshold : Nat
  owners : List Nat
  master_copy : Nat
  version : String
deriving DecidableEq

/-- The outcomes the Safe service's five read operations would return for a
given address; each read can fail independently with an error drawn from an
arbitrary type `ε` (the reads' own exception values). -/
structure SafeReadEnv (ε : Type) where
  nonce : Except ε Nat
  threshold : Except ε Nat
  owners : Except ε (List Nat)
  masterCopy : Except ε Nat
  version : Except ε String

/-- `SafeCreationService.retrieve_safe_info`: perform the five reads in
sequence and combine them with the queried address into a `SafeInfo`. An
exception from a read propagates unchanged and stops the sequence, so the
second component records which reads were actually performed. -/
def retrieve_safe_info {ε : Type} (env : SafeReadEnv ε) (address : Nat) :
    Except ε SafeInfo × List SafeRead :=
  match env.nonce with
  | Except.error e => (Except.error e, [SafeRead.nonce])
  | Except.ok nonce =>
    match env.threshold with
    | Except.error e => (Except.error e, [SafeRead.nonce, SafeRead.threshold])
    | Except.ok threshold =>
      match env.owners with
      | Except.error e =>
        (Except.error e, [SafeRead.nonce, SafeRead.threshold, SafeRead.owners])
      | Except.ok owners =>
        match env.masterCopy with
        | Except.error e =>
          (Except.error e,
           [SafeRead.nonce, SafeRead.threshold, SafeRead.owners,
            SafeRead.masterCopy])
        | Except.ok master_copy =>
          match env.version with
          | Except.error e =>
            (Except.error e,
             [SafeRead.nonce, SafeRead.threshold, SafeRead.owners,
              SafeRead.masterCopy, SafeRead.version])
          | Except.ok version =>
            (Except.ok ⟨address, nonce, threshold, owners, master_copy, version⟩,
             [SafeRead.nonce, SafeRead.threshold, SafeRead.owners,
              SafeRead.masterCopy, SafeRead.version])

/-! ## Claim theorems -/

/-- C1: for every input tuple (wallet address, to, value, data, operation,
safe_tx_gas, data_gas, gas_price, gas_token, refund_receiver, nonce) and
every keccak digest, the off-chain structured transaction hash computed by
the core (`get_hash_for_safe_tx`) is byte-for-byte equal to the hash
returned by the deployed wallet contract's own `getTransactionHash` for the
identical inputs. -/
theorem C1_hash_matches_contract (keccak : List Nat → Nat)
    (safe_address to_addr value : Nat) (data : List Nat)
    (op safe_tx_gas data_gas gas_price gas_token refund_receiver nonce : Nat) :
    get_hash_for_safe_tx keccak safe_address to_addr value data op safe_tx_gas
      data_gas gas_price gas_token refund_receiver nonce =
    getTransactionHash keccak safe_address to_addr value data op safe_tx_gas
      data_gas gas_price gas_token refund_receiver nonce := by
  simp [get_hash_for_safe_tx, getTransactionHash, encodeSafeTxFields]

/-- The packed bytes of a cons decompose as one 65-byte block followed by
the packing of the rest. -/
theorem signatures_to_bytes_cons (x : Nat × Nat × Nat)
    (xs : List (Nat × Nat × Nat)) :
    signatures_to_bytes (x :: xs) =
      signature_to_bytes x ++ signatures_to_bytes xs := by
  simp [signatures_to_bytes]

/-- C9: for every ordered list of n (v, r, s) triples, the packed-signature
bytes have length exactly 65 × n, and the i-th signer's 65-byte block is its
fixed-width r (32 bytes) followed by s (32 bytes) followed by v (1 byte), in
the caller-given order. -/
theorem C9_pack_signatures (sigs : List (Nat × Nat × Nat)) :
    (signatures_to_bytes sigs).length = 65 * sigs.length ∧
    ∀ i : Nat, ∀ h : i < sigs.length,
      ((signatures_to_bytes sigs).drop (65 * i)).take 65 =
        signature_to_bytes (sigs.get ⟨i, h⟩) := by
  induction sigs with
  | nil =>
    exact ⟨rfl, fun i h => absurd h (Nat.not_lt_zero i)⟩
  | cons x xs ih =>
    refine ⟨?_, ?_⟩
    · rw [signatures_to_bytes_cons, List.length_append,
        signature_to_bytes_length, ih.1, List.length_cons]
      ring
    · intro i h
      cases i with
      | zero =>
        rw [signatures_to_bytes_cons, Nat.mul_zero, List.drop_zero,
          List.take_left' (signature_to_bytes_length x)]
        rfl
      | succ j =>
        have hj : j < xs.length := by
          simpa [Nat.succ_lt_succ_iff] using h
        rw [signatures_to_bytes_cons, Nat.mul_succ, Nat.add_comm (65 * j) 65,
          ← signature_to_bytes_length x, List.drop_append,
          signature_to_bytes_length x]
        exact ih.2 j hj

/-- C9 witness: the theorem applied to a concrete one-signer list. -/
theorem C9_pack_signatures_witness :
    (signatures_to_bytes [(27, 1, 2)]).length = 65 * 1 ∧
    ((signatures_to_bytes [(27, 1, 2)]).drop (65 * 0)).take 65 =
      signature_to_bytes (27, 1, 2) :=
  ⟨(C9_pack_signatures [(27, 1, 2)]).1,
   (C9_pack_signatures [(27, 1, 2)]).2 0 (by decide)⟩

/-- C6: payment-token resolution returns 1.0 for the native-currency zero
address (and for a missing token) independently of the token table, and for
a non-native address it raises `InvalidPaymentToken` carrying that address
exactly when no row of the table registers the address as an accepted
gas-payment token — an unresolvable token is never silently resolved. -/
theorem C6_token_resolution :
    (∀ db : List Token,
      get_token_eth_value_or_raise db none = Except.ok 1 ∧
      get_token_eth_value_or_raise db (some NULL_ADDRESS) = Except.ok 1) ∧
    (∀ (db : List Token) (a : Nat), a ≠ NULL_ADDRESS →
      (get_token_eth_value_or_raise db (some a) =
          Except.error (CreationError.invalidPaymentToken a) ↔
        ∀ t ∈ db, ¬(t.address = a ∧ t.gas = true))) := by
  refine ⟨fun db => ⟨rfl, rfl⟩, fun db a ha => ?_⟩
  have hp : ∀ t : Token, (t.address == a && t.gas) = true ↔
      t.address = a ∧ t.gas = true := by
    intro t
    simp
  rw [show (∀ t ∈ db, ¬(t.address = a ∧ t.gas = true)) ↔
      db.filter (fun t => t.address == a && t.gas) = [] from by
    rw [List.filter_eq_nil_iff]
    constructor
    · intro hall t ht
      rw [hp t]
      exact hall t ht
    · intro hall t ht
      rw [← hp t]
      exact hall t ht]
  unfold get_token_eth_value_or_raise
  simp only [Option.getD_some, if_neg ha]
  cases hfil : db.filter (fun t => t.address == a && t.gas) with
  | nil => simp
  | cons t rest =>
    cases rest with
    | nil => simp
    | cons t2 rest2 => simp

/-- C6 witness: the theorem applied to the empty token table and the
non-native address 5. -/
theorem C6_token_resolution_witness :
    get_token_eth_value_or_raise [] (some 5) =
      Except.error (CreationError.invalidPaymentToken 5) ∧
    get_token_eth_value_or_raise [] none = Except.ok 1 :=
  ⟨(C6_token_resolution.2 [] 5 (by decide)).mpr (by simp),
   (C6_token_resolution.1 []).1⟩

/-- A concrete relay environment used to evaluate the relay theorems: every
signature set verifies, no extra refund receivers are allowed, the oracle
quotes (slow, standard, fast) = (1, 2, 3), and the node answers hash 42. -/
def relayEnv0 : RelayEnv :=
  { keccak := fun l => l.length
    checkSignatures := fun _ _ _ => true
    allowedReceivers := []
    gasPrices := ⟨1, 2, 3⟩
    submittedTxHash := 42 }

/-- A concrete chain state where every account has balance 0. -/
def chainPoor : ChainState :=
  { balances := fun _ => 0
    nonces := fun _ => 0
    owners := fun _ => []
    broadcasts := [] }

/-- A concrete chain state where every account has balance 100. -/
def chainRich : ChainState :=
  { balances := fun _ => 100
    nonces := fun _ => 0
    owners := fun _ => []
    broadcasts := [] }

/-- C3: for a relay request that passes the signature, refund-receiver and
gas-price checks, if the wallet's balance is below
(data_gas + safe_tx_gas) × gas_price + value then `send_multisig_tx` fails
with `NotEnoughFundsForMultisigTx` and leaves the chain state untouched (no
broadcast); with balance at least that amount the identical request succeeds,
broadcasts exactly one transaction and increments the wallet's nonce by
exactly 1. -/
theorem C3_funds_check (env : RelayEnv) (st : ChainState)
    (safe_address to_addr value : Nat) (data : List Nat)
    (op safe_tx_gas data_gas gas_price gas_token refund_receiver : Nat)
    (signatures : List Nat)
    (hsig : env.checkSignatures
      (multisigTxHash env st safe_address to_addr value data op safe_tx_gas
        data_gas gas_price gas_token refund_receiver)
      signatures (st.owners safe_address) = true)
    (hrr : refund_receiver = NULL_ADDRESS ∨
      refund_receiver ∈ env.allowedReceivers)
    (hgp0 : gas_price ≠ 0)
    (hgps : env.gasPrices.standard ≤ gas_price) :
    (st.balances safe_address < (data_gas + safe_tx_gas) * gas_price + value →
      send_multisig_tx env st safe_address to_addr value data op safe_tx_gas
        data_gas gas_price gas_token refund_receiver signatures =
        (Except.error RelayError.notEnoughFundsForMultisigTx, st)) ∧
    ((data_gas + safe_tx_gas) * gas_price + value ≤ st.balances safe_address →
      (send_multisig_tx env st safe_address to_addr value data op safe_tx_gas
          data_gas gas_price gas_token refund_receiver signatures).1 =
        Except.ok (env.submittedTxHash,
          ⟨to_addr, value, safe_tx_gas + data_gas⟩) ∧
      (send_multisig_tx env st safe_address to_addr value data op safe_tx_gas
          data_gas gas_price gas_token refund_receiver signatures).2.nonces
          safe_address = st.nonces safe_address + 1 ∧
      (send_multisig_tx env st safe_address to_addr value data op safe_tx_gas
          data_gas gas_price gas_token refund_receiver signatures).2.broadcasts =
        st.broadcasts ++ [env.submittedTxHash]) := by
  constructor
  · intro hlt
    simp [send_multisig_tx, hsig, hrr, hgp0, Nat.not_lt.mpr hgps, hlt]
  · intro hge
    refine ⟨?_, ?_, ?_⟩ <;>
      simp [send_multisig_tx, hsig, hrr, hgp0, Nat.not_lt.mpr hgps,
        Nat.not_lt.mpr hge]

/-- C3 witness: the theorem applied at a concrete request — required payment
(20 + 10) × 2 + 5 = 65 — against a wallet with balance 0 and then against the
same request with balance 100. -/
theorem C3_funds_check_witness :
    send_multisig_tx relayEnv0 chainPoor 1 2 5 [] 0 10 20 2 0 0 [] =
      (Except.error RelayError.notEnoughFundsForMultisigTx, chainPoor) ∧
    (send_multisig_tx relayEnv0 chainRich 1 2 5 [] 0 10 20 2 0 0 []).1 =
      Except.ok (42, ⟨2, 5, 30⟩) ∧
    (send_multisig_tx relayEnv0 chainRich 1 2 5 [] 0 10 20 2 0 0 []).2.nonces 1
      = 1 :=
  ⟨(C3_funds_check relayEnv0 chainPoor 1 2 5 [] 0 10 20 2 0 0 [] rfl
      (Or.inl rfl) (by decide) (by decide)).1 (by decide),
   ((C3_funds_check relayEnv0 chainRich 1 2 5 [] 0 10 20 2 0 0 [] rfl
      (Or.inl rfl) (by decide) (by decide)).2 (by decide)).1,
   ((C3_funds_check relayEnv0 chainRich 1 2 5 [] 0 10 20 2 0 0 [] rfl
      (Or.inl rfl) (by decide) (by decide)).2 (by decide)).2.1⟩

/-- C4 counterexample: a relay request with gas_price = 0 whose refund
receiver (address 9) is not allowed fails with `InvalidRefundReceiver`, not
with `RefundMustBeEnabled` — the refund-receiver policy check runs first, so
the claim's "regardless of all other parameters" is false. -/
theorem C4_counterexample :
    (send_multisig_tx relayEnv0 chainRich 1 2 5 [] 0 10 20 0 0 9 []).1 =
      Except.error RelayError.invalidRefundReceiver ∧
    RelayError.invalidRefundReceiver ≠ RelayError.refundMustBeEnabled := by
  refine ⟨rfl, by decide⟩

/-- C4 (amended): for every relay request with gas_price = 0 whose
signatures verify and whose refund receiver passes the receiver policy,
`send_multisig_tx` fails with `RefundMustBeEnabled` and leaves the chain
state untouched (no broadcast), regardless of all remaining parameters. -/
theorem C4_zero_gas_price (env : RelayEnv) (st : ChainState)
    (safe_address to_addr value : Nat) (data : List Nat)
    (op safe_tx_gas data_gas gas_token refund_receiver : Nat)
    (signatures : List Nat)
    (hsig : env.checkSignatures
      (multisigTxHash env st safe_address to_addr value data op safe_tx_gas
        data_gas 0 gas_token refund_receiver)
      signatures (st.owners safe_address) = true)
    (hrr : refund_receiver = NULL_ADDRESS ∨
      refund_receiver ∈ env.allowedReceivers) :
    send_multisig_tx env st safe_address to_addr value data op safe_tx_gas
      data_gas 0 gas_token refund_receiver signatures =
      (Except.error RelayError.refundMustBeEnabled, st) := by
  simp [send_multisig_tx, hsig, hrr]

/-- C4 witness: the amended theorem applied to a concrete zero-gas-price
request with the zero-address refund receiver. -/
theorem C4_zero_gas_price_witness :
    send_multisig_tx relayEnv0 chainRich 1 2 5 [] 0 10 20 0 0 0 [] =
      (Except.error RelayError.refundMustBeEnabled, chainRich) :=
  C4_zero_gas_price relayEnv0 chainRich 1 2 5 [] 0 10 20 0 0 [] rfl
    (Or.inl rfl)

/-- C5: a relay request with nonzero gas_price strictly below the oracle's
standard tier that passes the signature and refund-receiver checks fails
with `GasPriceTooLow` and leaves the chain state untouched; and a request
with gas_price at or above the standard tier is never rejected with
`GasPriceTooLow`, whatever its other parameters. -/
theorem C5_gas_price_floor :
    (∀ (env : RelayEnv) (st : ChainState) (safe_address to_addr value : Nat)
      (data : List Nat)
      (op safe_tx_gas data_gas gas_price gas_token refund_receiver : Nat)
      (signatures : List Nat),
      env.checkSignatures
        (multisigTxHash env st safe_address to_addr value data op safe_tx_gas
          data_gas gas_price gas_token refund_receiver)
        signatures (st.owners safe_address) = true →
      (refund_receiver = NULL_ADDRESS ∨
        refund_receiver ∈ env.allowedReceivers) →
      gas_price ≠ 0 → gas_price < env.gasPrices.standard →
      send_multisig_tx env st safe_address to_addr value data op safe_tx_gas
        data_gas gas_price gas_token refund_receiver signatures =
        (Except.error RelayError.gasPriceTooLow, st)) ∧
    (∀ (env : RelayEnv) (st : ChainState) (safe_address to_addr value : Nat)
      (data : List Nat)
      (op safe_tx_gas data_gas gas_price gas_token refund_receiver : Nat)
      (signatures : List Nat),
      env.gasPrices.standard ≤ gas_price →
      (send_multisig_tx env st safe_address to_addr value data op safe_tx_gas
          data_gas gas_price gas_token refund_receiver signatures).1 ≠
        Except.error RelayError.gasPriceTooLow) := by
  constructor
  · intro env st safe_address to_addr value data op safe_tx_gas data_gas
      gas_price gas_token refund_receiver signatures hsig hrr hgp0 hlt
    simp [send_multisig_tx, hsig, hrr, hgp0, hlt]
  · intro env st safe_address to_addr value data op safe_tx_gas data_gas
      gas_price gas_token refund_receiver signatures hge
    simp only [send_multisig_tx]
    split_ifs with h1 h2 h3 h4 h5 <;> simp_all
    omega

/-- C5 witness: the theorem applied at gas_price 1 (below the standard tier
2, rejected with `GasPriceTooLow`) and at gas_price 2 (at the tier, not
rejected for that reason). -/
theorem C5_gas_price_floor_witness :
    send_multisig_tx relayEnv0 chainRich 1 2 5 [] 0 10 20 1 0 0 [] =
      (Except.error RelayError.gasPriceTooLow, chainRich) ∧
    (send_multisig_tx relayEnv0 chainRich 1 2 5 [] 0 10 20 2 0 0 []).1 ≠
      Except.error RelayError.gasPriceTooLow :=
  ⟨C5_gas_price_floor.1 relayEnv0 chainRich 1 2 5 [] 0 10 20 1 0 0 [] rfl
      (Or.inl rfl) (by decide) (by decide),
   C5_gas_price_floor.2 relayEnv0 chainRich 1 2 5 [] 0 10 20 2 0 0 []
      (by decide)⟩

/-- A concrete legacy builder output used to evaluate the creation theorems
(payment token is the zero address, so the stored field must normalize to
`None`). -/
def creationTx0 : SafeCreationTx :=
  { safe_address := 100
    master_copy := 200
    deployer_address := 300
    funder := 400
    payment := 50
    tx_hash := 500
    gas := 90000
    gas_price := 3
    payment_token := 0
    value := 10
    v := 27
    r := 1
    s := 2
    data := []
    tx_raw := [] }

/-- A concrete salt-based builder output used to evaluate the creation
theorems. -/
def creation2Tx0 : SafeCreation2Tx :=
  { safe_address := 100
    master_copy_address := 200
    proxy_factory_address := 600
    payment_token := 0
    payment := 50
    payment_receiver := 700
    safe_setup_data := [1, 2]
    gas := 90000
    gas_price := 3 }

/-- A concrete creation environment whose wallet-stub write succeeds but
whose creation-record write fails. -/
def creationEnvOrphan : CreationEnv :=
  { tokenDb := []
    gasPrices := ⟨1, 2, 3⟩
    buildSafeCreationTx := fun _ _ _ _ _ _ _ => Except.ok creationTx0
    buildSafeCreate2Tx := fun _ _ _ _ _ _ _ => Except.ok creation2Tx0
    contractCreateOk := true
    creationCreateOk := false }

/-- The same creation environment with both persistence writes succeeding. -/
def creationEnvOk : CreationEnv :=
  { creationEnvOrphan with creationCreateOk := true }

/-- The empty persisted database. -/
def dbEmpty : DBState := ⟨[], [], []⟩

/-- C2 counterexample: a call to `create_safe_tx` in which the token
resolves, the builder succeeds and the wallet-stub write commits, but the
creation-record write then fails, ends in an error with the stub persisted
and no creation record — a failed call that leaves an orphaned wallet stub,
contradicting the claim's both-or-neither for every failing call. -/
theorem C2_counterexample :
    (create_safe_tx creationEnvOrphan 0 dbEmpty 1 [11] 1 none).1 =
      Except.error CreationError.dbWriteFailed ∧
    (create_safe_tx creationEnvOrphan 0 dbEmpty 1 [11] 1 none).2.safeContracts =
      [⟨100, 200⟩] ∧
    (create_safe_tx creationEnvOrphan 0 dbEmpty 1 [11] 1 none).2.safeCreations =
      [] :=
  ⟨rfl, rfl, rfl⟩

/-- C2 (amended): an unresolvable payment token aborts `create_safe_tx` and
`create2_safe_tx` with the persisted state unchanged (no stub, no record) —
and in general every call either fails before any write with the state
unchanged, or fails after the stub write alone committed (leaving the stub
without its record), or succeeds having written exactly the stub and its
matching record. -/
theorem C2_creation_state (env : CreationEnv) (fixed_creation_cost : Nat)
    (st : DBState) (s : Nat) (owners : List Nat) (threshold : Nat)
    (payment_token : Option Nat) :
    (∀ e : CreationError,
      get_token_eth_value_or_raise env.tokenDb payment_token =
        Except.error e →
      create_safe_tx env fixed_creation_cost st s owners threshold
        payment_token = (Except.error e, st) ∧
      create2_safe_tx env fixed_creation_cost st s owners threshold
        payment_token = (Except.error e, st)) ∧
    ((∃ e, create_safe_tx env fixed_creation_cost st s owners threshold
        payment_token = (Except.error e, st)) ∨
     ((create_safe_tx env fixed_creation_cost st s owners threshold
          payment_token).1 = Except.error CreationError.dbWriteFailed ∧
      ∃ c, (create_safe_tx env fixed_creation_cost st s owners threshold
          payment_token).2 =
        { st with safeContracts := st.safeContracts ++ [c] }) ∨
     (∃ rec c, create_safe_tx env fixed_creation_cost st s owners threshold
          payment_token =
        (Except.ok rec,
         { st with safeContracts := st.safeContracts ++ [c],
                   safeCreations := st.safeCreations ++ [rec] }))) ∧
    ((∃ e, create2_safe_tx env fixed_creation_cost st s owners threshold
        payment_token = (Except.error e, st)) ∨
     ((create2_safe_tx env fixed_creation_cost st s owners threshold
          payment_token).1 = Except.error CreationError.dbWriteFailed ∧
      ∃ c, (create2_safe_tx env fixed_creation_cost st s owners threshold
          payment_token).2 =
        { st with safeContracts := st.safeContracts ++ [c] }) ∨
     (∃ rec c, create2_safe_tx env fixed_creation_cost st s owners threshold
          payment_token =
        (Except.ok rec,
         { st with safeContracts := st.safeContracts ++ [c],
                   safeCreation2s := st.safeCreation2s ++ [rec] }))) := by
  refine ⟨?_, ?_, ?_⟩
  · intro e htok
    constructor <;> simp [create_safe_tx, create2_safe_tx, htok]
  · rcases htok : get_token_eth_value_or_raise env.tokenDb payment_token
      with e | v
    · exact Or.inl ⟨e, by simp [create_safe_tx, htok]⟩
    · rcases hb : env.buildSafeCreationTx s owners threshold env.gasPrices.fast
        (payment_token.getD NULL_ADDRESS) v fixed_creation_cost with e | tx
      · exact Or.inl ⟨e, by simp [create_safe_tx, htok, hb]⟩
      · cases hc : env.contractCreateOk
        · exact Or.inl ⟨CreationError.dbWriteFailed,
            by simp [create_safe_tx, htok, hb, hc]⟩
        · cases hcr : env.creationCreateOk
          · refine Or.inr (Or.inl ⟨?_, ⟨tx.safe_address, tx.master_copy⟩, ?_⟩)
            · simp [create_safe_tx, htok, hb, hc, hcr]
            · simp [create_safe_tx, htok, hb, hc, hcr]
          · refine Or.inr (Or.inr ⟨legacyRecordOf tx owners threshold,
              ⟨tx.safe_address, tx.master_copy⟩, ?_⟩)
            simp [create_safe_tx, htok, hb, hc, hcr]
  · rcases htok : get_token_eth_value_or_raise env.tokenDb payment_token
      with e | v
    · exact Or.inl ⟨e, by simp [create2_safe_tx, htok]⟩
    · rcases hb : env.buildSafeCreate2Tx s owners threshold env.gasPrices.fast
        (payment_token.getD NULL_ADDRESS) v fixed_creation_cost with e | tx
      · exact Or.inl ⟨e, by simp [create2_safe_tx, htok, hb]⟩
      · cases hc : env.contractCreateOk
        · exact Or.inl ⟨CreationError.dbWriteFailed,
            by simp [create2_safe_tx, htok, hb, hc]⟩
        · cases hcr : env.creationCreateOk
          · refine Or.inr (Or.inl ⟨?_, ⟨tx.safe_address, tx.master_copy_address⟩, ?_⟩)
            · simp [create2_safe_tx, htok, hb, hc, hcr]
            · simp [create2_safe_tx, htok, hb, hc, hcr]
          · refine Or.inr (Or.inr ⟨create2RecordOf tx s owners threshold,
              ⟨tx.safe_address, tx.master_copy_address⟩, ?_⟩)
            simp [create2_safe_tx, htok, hb, hc, hcr]

/-- C2 witness: the amended theorem applied to an unresolvable payment token
(address 5 with an empty token table): both creation calls abort with
`InvalidPaymentToken(5)` and the empty database is unchanged. -/
theorem C2_creation_state_witness :
    create_safe_tx creationEnvOrphan 0 dbEmpty 1 [11] 1 (some 5) =
      (Except.error (CreationError.invalidPaymentToken 5), dbEmpty) ∧
    create2_safe_tx creationEnvOrphan 0 dbEmpty 1 [11] 1 (some 5) =
      (Except.error (CreationError.invalidPaymentToken 5), dbEmpty) :=
  (C2_creation_state creationEnvOrphan 0 dbEmpty 1 [11] 1 (some 5)).1
    (CreationError.invalidPaymentToken 5) rfl

/-- C10: every creation record returned (and persisted) by a successful
`create_safe_tx` or `create2_safe_tx` call has its payment-token field
normalized — it is never the zero-address sentinel, and it is `None` exactly
if the builder's payment token was the zero address, `Some` of that genuine
token address otherwise. -/
theorem C10_payment_token_normalized :
    (∀ (env : CreationEnv) (fixed_creation_cost : Nat) (st : DBState)
      (s : Nat) (owners : List Nat) (threshold : Nat)
      (payment_token : Option Nat) (rec : SafeCreation) (st' : DBState),
      create_safe_tx env fixed_creation_cost st s owners threshold
        payment_token = (Except.ok rec, st') →
      rec.payment_token ≠ some NULL_ADDRESS ∧
      st'.safeCreations = st.safeCreations ++ [rec] ∧
      ∃ v tx, env.buildSafeCreationTx s owners threshold env.gasPrices.fast
          (payment_token.getD NULL_ADDRESS) v fixed_creation_cost =
          Except.ok tx ∧
        rec.payment_token = (if tx.payment_token = NULL_ADDRESS then none
          else some tx.payment_token)) ∧
    (∀ (env : CreationEnv) (fixed_creation_cost : Nat) (st : DBState)
      (salt_nonce : Nat) (owners : List Nat) (threshold : Nat)
      (payment_token : Option Nat) (rec : SafeCreation2) (st' : DBState),
      create2_safe_tx env fixed_creation_cost st salt_nonce owners threshold
        payment_token = (Except.ok rec, st') →
      rec.payment_token ≠ some NULL_ADDRESS ∧
      st'.safeCreation2s = st.safeCreation2s ++ [rec] ∧
      ∃ v tx, env.buildSafeCreate2Tx salt_nonce owners threshold
          env.gasPrices.fast (payment_token.getD NULL_ADDRESS) v
          fixed_creation_cost = Except.ok tx ∧
        rec.payment_token = (if tx.payment_token = NULL_ADDRESS then none
          else some tx.payment_token)) := by
  constructor
  · intro env fixed_creation_cost st s owners threshold payment_token rec st' h
    rcases htok : get_token_eth_value_or_raise env.tokenDb payment_token
      with e | v
    · simp [create_safe_tx, htok] at h
    · rcases hb : env.buildSafeCreationTx s owners threshold env.gasPrices.fast
        (payment_token.getD NULL_ADDRESS) v fixed_creation_cost with e | tx
      · simp [create_safe_tx, htok, hb] at h
      · cases hc : env.contractCreateOk
        · simp [create_safe_tx, htok, hb, hc] at h
        · cases hcr : env.creationCreateOk
          · simp [create_safe_tx, htok, hb, hc, hcr] at h
          · simp only [create_safe_tx, htok, hb, hc, hcr, if_true,
              Prod.mk.injEq, Except.ok.injEq] at h
            obtain ⟨hrec, hst⟩ := h
            subst hrec
            subst hst
            refine ⟨?_, rfl, v, tx, hb, rfl⟩
            simp only [legacyRecordOf]
            split
            · simp
            · simp_all
  · intro env fixed_creation_cost st salt_nonce owners threshold payment_token
      rec st' h
    rcases htok : get_token_eth_value_or_raise env.tokenDb payment_token
      with e | v
    · simp [create2_safe_tx, htok] at h
    · rcases hb : env.buildSafeCreate2Tx salt_nonce owners threshold
        env.gasPrices.fast (payment_token.getD NULL_ADDRESS) v
        fixed_creation_cost with e | tx
      · simp [create2_safe_tx, htok, hb] at h
      · cases hc : env.contractCreateOk
        · simp [create2_safe_tx, htok, hb, hc] at h
        · cases hcr : env.creationCreateOk
          · simp [create2_safe_tx, htok, hb, hc, hcr] at h
          · simp only [create2_safe_tx, htok, hb, hc, hcr, if_true,
              Prod.mk.injEq, Except.ok.injEq] at h
            obtain ⟨hrec, hst⟩ := h
            subst hrec
            subst hst
            refine ⟨?_, rfl, v, tx, hb, rfl⟩
            simp only [create2RecordOf]
            split
            · simp
            · simp_all

/-- The record produced by `create_safe_tx` with builder output
`creationTx0` and owners `[11]`, threshold 1: the zero-address payment token
is stored as `None`. -/
def creationRec0 : SafeCreation :=
  { deployer := 300
    safe := 100
    master_copy := 200
    funder := 400
    owners := [11]
    threshold := 1
    payment := 50
    tx_hash := 500
    gas := 90000
    gas_price := 3
    payment_token := none
    value := 10
    v := 27
    r := 1
    s := 2
    data := []
    signed_tx := [] }

/-- The database state after that successful creation call. -/
def dbAfterCreation0 : DBState :=
  { safeContracts := [⟨100, 200⟩]
    safeCreations := [creationRec0]
    safeCreation2s := [] }

/-- C10 witness: the theorem applied to a concrete successful creation whose
builder reported the zero-address payment token. -/
theorem C10_payment_token_normalized_witness :
    creationRec0.payment_token ≠ some NULL_ADDRESS ∧
    dbAfterCreation0.safeCreations = dbEmpty.safeCreations ++ [creationRec0] :=
  ⟨(C10_payment_token_normalized.1 creationEnvOk 0 dbEmpty 1 [11] 1 none
      creationRec0 dbAfterCreation0 rfl).1,
   (C10_payment_token_normalized.1 creationEnvOk 0 dbEmpty 1 [11] 1 none
      creationRec0 dbAfterCreation0 rfl).2.1⟩

/-- A concrete persisted salt-based record for wallet address 100 whose
deployment has not yet been submitted. -/
def creation2Rec0 : SafeCreation2 :=
  { safe := 100
    master_copy := 200
    proxy_factory := 600
    salt_nonce := 9
    owners := [11]
    threshold := 1
    payment_token := none
    payment := 50
    payment_receiver := 700
    setup_data := [1, 2]
    gas_estimated := 90000
    gas_price_estimated := 3
    tx_hash := none }

/-- A deploy state holding that one record and no broadcasts yet. -/
def deploySt0 : DeployState := ⟨[creation2Rec0], []⟩

/-- C7 counterexample: two successive calls to `deploy_create2_safe_tx` for
the same wallet address both succeed, submit two deployment transactions,
and the second overwrites the transaction-hash field written by the first —
the function never checks whether a deployment was already recorded, so "at
most one successful deployment per wallet even across repeated calls" is
false. -/
theorem C7_counterexample :
    (deploy_create2_safe_tx (Except.ok 200) deploySt0 100).1 =
      Except.ok 200 ∧
    (deploy_create2_safe_tx (Except.ok 201)
      (deploy_create2_safe_tx (Except.ok 200) deploySt0 100).2 100).1 =
      Except.ok 201 ∧
    (deploy_create2_safe_tx (Except.ok 201)
      (deploy_create2_safe_tx (Except.ok 200) deploySt0 100).2 100).2.broadcasts
      = [200, 201] ∧
    (deploy_create2_safe_tx (Except.ok 201)
      (deploy_create2_safe_tx (Except.ok 200) deploySt0 100).2 100).2.records
      = [{ creation2Rec0 with tx_hash := some 201 }] :=
  ⟨rfl, rfl, rfl, rfl⟩

/-- C7 (amended): `deploy_create2_safe_tx` fails without submitting anything
(state unchanged) when no persisted salted record exists for the address; a
successful call submits exactly one deployment and writes its hash into the
record's transaction-hash field; a failed submission changes nothing — but
nothing stops a later call from submitting and overwriting again. -/
theorem C7_deploy_create2 :
    (∀ (deployResult : Except CreationError Nat) (st : DeployState) (a : Nat),
      st.records.find? (fun r2 => r2.safe == a) = none →
      deploy_create2_safe_tx deployResult st a =
        (Except.error (CreationError.safeCreation2DoesNotExist a), st)) ∧
    (∀ (h : Nat) (st : DeployState) (a : Nat) (r2 : SafeCreation2),
      st.records.find? (fun r2 => r2.safe == a) = some r2 →
      (deploy_create2_safe_tx (Except.ok h) st a).1 = Except.ok h ∧
      (deploy_create2_safe_tx (Except.ok h) st a).2.broadcasts =
        st.broadcasts ++ [h] ∧
      ∀ q ∈ (deploy_create2_safe_tx (Except.ok h) st a).2.records,
        q.safe = a → q.tx_hash = some h) ∧
    (∀ (e : CreationError) (st : DeployState) (a : Nat) (r2 : SafeCreation2),
      st.records.find? (fun r2 => r2.safe == a) = some r2 →
      deploy_create2_safe_tx (Except.error e) st a = (Except.error e, st)) := by
  refine ⟨?_, ?_, ?_⟩
  · intro deployResult st a hfind
    simp [deploy_create2_safe_tx, hfind]
  · intro h st a r2 hfind
    have hr2 : r2.safe = a := by
      have := List.find?_some hfind
      simpa using this
    refine ⟨?_, ?_, ?_⟩
    · simp [deploy_create2_safe_tx, hfind]
    · simp [deploy_create2_safe_tx, hfind]
    · intro q hq hqa
      simp only [deploy_create2_safe_tx, hfind, List.mem_map] at hq
      obtain ⟨q0, _, hq0⟩ := hq
      by_cases hcase : q0.safe = a
      · simp [hcase] at hq0
        rw [← hq0]
      · rw [if_neg (by simpa using hcase)] at hq0
        rw [← hq0] at hqa
        exact absurd hqa hcase
  · intro e st a r2 hfind
    simp [deploy_create2_safe_tx, hfind]

/-- C7 witness: the amended theorem applied to the empty record table (the
call fails with `DoesNotExist` and submits nothing) and to the concrete
record table above (the call succeeds and appends one broadcast). -/
theorem C7_deploy_create2_witness :
    deploy_create2_safe_tx (Except.ok 5) ⟨[], []⟩ 100 =
      (Except.error (CreationError.safeCreation2DoesNotExist 100),
       (⟨[], []⟩ : DeployState)) ∧
    (deploy_create2_safe_tx (Except.ok 200) deploySt0 100).1 = Except.ok 200 ∧
    (deploy_create2_safe_tx (Except.ok 200) deploySt0 100).2.broadcasts =
      [200] :=
  ⟨C7_deploy_create2.1 (Except.ok 5) ⟨[], []⟩ 100 rfl,
   (C7_deploy_create2.2.1 200 deploySt0 100 creation2Rec0 rfl).1,
   (C7_deploy_create2.2.1 200 deploySt0 100 creation2Rec0 rfl).2.1⟩

/-- A read environment whose nonce read fails with the raw error value 7. -/
def readsFailNonce : SafeReadEnv Nat :=
  { nonce := Except.error 7
    threshold := Except.ok 1
    owners := Except.ok []
    masterCopy := Except.ok 0
    version := Except.ok "1.0.0" }

/-- A read environment whose threshold read fails with the same raw error
value 7. -/
def readsFailThreshold : SafeReadEnv Nat :=
  { nonce := Except.ok 0
    threshold := Except.error 7
    owners := Except.ok []
    masterCopy := Except.ok 0
    version := Except.ok "1.0.0" }

/-- A read environment in which all five reads succeed. -/
def readsAllOk : SafeReadEnv Nat :=
  { nonce := Except.ok 4
    threshold := Except.ok 2
    owners := Except.ok [8, 9]
    masterCopy := Except.ok 3
    version := Except.ok "1.0.0" }

/-- C8 counterexample: when the nonce read fails with raw error 7 and when
instead the threshold read fails with the same raw error 7,
`retrieve_safe_info` returns the identical error, although different reads
failed — the propagated failure is the read's own exception, not an
aggregate error naming which read failed. -/
theorem C8_counterexample :
    (retrieve_safe_info readsFailNonce 1).1 =
      (retrieve_safe_info readsFailThreshold 1).1 ∧
    (retrieve_safe_info readsFailNonce 1).2 ≠
      (retrieve_safe_info readsFailThreshold 1).2 :=
  ⟨rfl, by decide⟩

/-- C8 (amended): `retrieve_safe_info` performs the five reads in sequence —
exactly five, with no caching, when all succeed, returning the `SafeInfo`
that combines them with the queried address — and when a read fails, that
read's own error propagates unchanged as the call's single error and the
later reads are not performed. -/
theorem C8_retrieve_safe_info :
    (∀ (ε : Type) (env : SafeReadEnv ε) (a n t : Nat) (o : List Nat) (m : Nat)
      (ver : String),
      env.nonce = Except.ok n → env.threshold = Except.ok t →
      env.owners = Except.ok o → env.masterCopy = Except.ok m →
      env.version = Except.ok ver →
      retrieve_safe_info env a =
        (Except.ok ⟨a, n, t, o, m, ver⟩,
         [SafeRead.nonce, SafeRead.threshold, SafeRead.owners,
          SafeRead.masterCopy, SafeRead.version])) ∧
    (∀ (ε : Type) (env : SafeReadEnv ε) (a : Nat) (e : ε),
      env.nonce = Except.error e →
      retrieve_safe_info env a = (Except.error e, [SafeRead.nonce])) ∧
    (∀ (ε : Type) (env : SafeReadEnv ε) (a n : Nat) (e : ε),
      env.nonce = Except.ok n → env.threshold = Except.error e →
      retrieve_safe_info env a =
        (Except.error e, [SafeRead.nonce, SafeRead.threshold])) ∧
    (∀ (ε : Type) (env : SafeReadEnv ε) (a n t : Nat) (e : ε),
      env.nonce = Except.ok n → env.threshold = Except.ok t →
      env.owners = Except.error e →
      retrieve_safe_info env a =
        (Except.error e,
         [SafeRead.nonce, SafeRead.threshold, SafeRead.owners])) ∧
    (∀ (ε : Type) (env : SafeReadEnv ε) (a n t : Nat) (o : List Nat) (e : ε),
      env.nonce = Except.ok n → env.threshold = Except.ok t →
      env.owners = Except.ok o → env.masterCopy = Except.error e →
      retrieve_safe_info env a =
        (Except.error e,
         [SafeRead.nonce, SafeRead.threshold, SafeRead.owners,
          SafeRead.masterCopy])) ∧
    (∀ (ε : Type) (env : SafeReadEnv ε) (a n t : Nat) (o : List Nat) (m : Nat)
      (e : ε),
      env.nonce = Except.ok n → env.threshold = Except.ok t →
      env.owners = Except.ok o → env.masterCopy = Except.ok m →
      env.version = Except.error e →
      retrieve_safe_info env a =
        (Except.error e,
         [SafeRead.nonce, SafeRead.threshold, SafeRead.owners,
          SafeRead.masterCopy, SafeRead.version])) := by
  refine ⟨?_, ?_, ?_, ?_, ?_, ?_⟩
  · intro ε env a n t o m ver h1 h2 h3 h4 h5
    simp [retrieve_safe_info, h1, h2, h3, h4, h5]
  · intro ε env a e h1
    simp [retrieve_safe_info, h1]
  · intro ε env a n e h1 h2
    simp [retrieve_safe_info, h1, h2]
  · intro ε env a n t e h1 h2 h3
    simp [retrieve_safe_info, h1, h2, h3]
  · intro ε env a n t o e h1 h2 h3 h4
    simp [retrieve_safe_info, h1, h2, h3, h4]
  · intro ε env a n t o m e h1 h2 h3 h4 h5
    simp [retrieve_safe_info, h1, h2, h3, h4, h5]

/-- C8 witness: the amended theorem applied to the all-successful concrete
read environment and to the one whose nonce read fails. -/
theorem C8_retrieve_safe_info_witness :
    retrieve_safe_info readsAllOk 1 =
      (Except.ok ⟨1, 4, 2, [8, 9], 3, "1.0.0"⟩,
       [SafeRead.nonce, SafeRead.threshold, SafeRead.owners,
        SafeRead.masterCopy, SafeRead.version]) ∧
    retrieve_safe_info readsFailNonce 1 =
      (Except.error 7, [SafeRead.nonce]) :=
  ⟨C8_retrieve_safe_info.1 Nat readsAllOk 1 4 2 [8, 9] 3 "1.0.0"
      rfl rfl rfl rfl rfl,
   C8_retrieve_safe_info.2.1 Nat readsFailNonce 1 7 rfl⟩

end SafeRelay
